import Mathlib

/-!
Shallow embedding of `lights/Lights.cpp` from the
LineageOS `android_device_xiaomi_msm8953-common` device tree.

The C++ service renders logical light requests (backlight, battery,
buttons, notification, attention) onto sysfs control files.  We model:

  * `HwLightState` (the AIDL request) with `color` as the unsigned
    32-bit view of the packed ARGB value;
  * each sysfs control file the code touches as a constructor of
    `DeviceFile`;
  * `WriteIntToFile` (which wraps `android::base::WriteStringToFile`
    and returns `true` on success) through an environment oracle
    `Env.ok : DeviceFile → Nat → Bool` giving the outcome of a write
    of a given value to a given file; every value the code passes to
    `WriteIntToFile` is non-negative and below 2^31, so `Nat` values
    are a faithful model of the C `int` arguments;
  * the `access(…, F_OK)` probes for the button and LCD files as the
    booleans `Env.buttonExists` and `Env.lcdExists`;
  * the file-scope mutable globals (`g_notification`, `g_battery`,
    `g_last_backlight_mode`, `g_attention`) as a `GlobalState` record
    threaded explicitly;
  * each handler as a function returning the list of attempted device
    writes (file, value) in program order, the updated global state
    where it mutates one, and the `ndk::ScopedAStatus` result.

The `WHITE_LED` compile-time variant is not enabled for this device
tree, so `colorRGB = state.color` with no override, as in the default
preprocessed source.
-/

/-- AIDL `FlashMode`. -/
inductive FlashMode
  | NONE
  | TIMED
  | HARDWARE
  deriving DecidableEq, Repr

/-- AIDL `BrightnessMode`. -/
inductive BrightnessMode
  | USER
  | SENSOR
  | LOW_PERSISTENCE
  deriving DecidableEq, Repr

/-- AIDL `HwLightState`.  `color` is the unsigned 32-bit view of the
packed ARGB value (the C++ code only ever masks it or converts it to
`unsigned int`, so the `Nat` view below 2^32 is exact).  `flashOnMs`
and `flashOffMs` are signed 32-bit, kept as `Int`. -/
structure HwLightState where
  color : Nat
  flashMode : FlashMode
  flashOnMs : Int
  flashOffMs : Int
  brightnessMode : BrightnessMode
  deriving DecidableEq, Repr

/-- The sysfs control files named at the top of `Lights.cpp`. -/
inductive DeviceFile
  | RED_LED
  | GREEN_LED
  | BLUE_LED
  | RED_BLINK
  | GREEN_BLINK
  | BLUE_BLINK
  | LCD
  | LCD2
  | BUTTON
  | PERSISTENCE
  deriving DecidableEq, Repr

/-- One attempted device write: target file and the integer value
passed to `WriteIntToFile` (always non-negative in this code). -/
abbrev DeviceWrite := DeviceFile × Nat

/-- Environment: outcome of each `WriteIntToFile` call (`true` =
`WriteStringToFile` succeeded) and the `access(…, F_OK)` probes. -/
structure Env where
  ok : DeviceFile → Nat → Bool
  buttonExists : Bool
  lcdExists : Bool

/-- Binder exception codes used by the dispatcher. -/
inductive BinderException
  | EX_UNSUPPORTED_OPERATION
  deriving DecidableEq, Repr

/-- `ndk::ScopedAStatus` results produced by the service. -/
inductive Status
  | ok
  | fromExceptionCode (code : BinderException)
  | fromServiceSpecificError (err : Nat)
  deriving DecidableEq, Repr

/-- The file-scope globals of `Lights.cpp`. -/
structure GlobalState where
  g_notification : HwLightState
  g_battery : HwLightState
  g_last_backlight_mode : BrightnessMode
  g_attention : Int
  deriving DecidableEq, Repr

/-- `Lights::isLit`: `state.color & 0x00ffffff` (used as a truth
value by the caller; non-zero means lit). -/
def isLit (state : HwLightState) : Nat :=
  state.color &&& 0x00ffffff

/-- `Lights::RgbToBrightness`: mask the color to its low 24 bits and
apply the integer luma weighting `(77*R + 150*G + 29*B) >> 8`.  The C
`int` arithmetic stays within `0 ≤ … ≤ 65280`, so `Nat` arithmetic
with truncating `>>>` is exact. -/
def RgbToBrightness (state : HwLightState) : Nat :=
  let color := state.color &&& 0x00ffffff
  (77 * ((color >>> 16) &&& 0x00ff)
    + 150 * ((color >>> 8) &&& 0x00ff)
    + 29 * (color &&& 0x00ff)) >>> 8

/-- `onMS` as selected by the `switch (state.flashMode)` in
`setSpeakerLightLocked`: the request value for `TIMED`, `0` for
`NONE` and every other mode. -/
def speakerOnMS (state : HwLightState) : Int :=
  match state.flashMode with
  | FlashMode.TIMED => state.flashOnMs
  | _ => 0

/-- `offMS` as selected by the `switch (state.flashMode)` in
`setSpeakerLightLocked`. -/
def speakerOffMS (state : HwLightState) : Int :=
  match state.flashMode with
  | FlashMode.TIMED => state.flashOffMs
  | _ => 0

/-- `red = (colorRGB >> 16) & 0xFF` in `setSpeakerLightLocked`. -/
def speakerRed (state : HwLightState) : Nat :=
  (state.color >>> 16) &&& 0xff

/-- `green = (colorRGB >> 8) & 0xFF` in `setSpeakerLightLocked`. -/
def speakerGreen (state : HwLightState) : Nat :=
  (state.color >>> 8) &&& 0xff

/-- `blue = colorRGB & 0xFF` in `setSpeakerLightLocked`. -/
def speakerBlue (state : HwLightState) : Nat :=
  state.color &&& 0xff

/-- The blink-code selection of `setSpeakerLightLocked`:
`onMS > 0 && offMS > 0` picks code 2 when equal, 1 otherwise;
any other case picks code 0. -/
def speakerBlink (onMS offMS : Int) : Nat :=
  if 0 < onMS ∧ 0 < offMS then
    if onMS = offMS then 2 else 1
  else 0

/-- The writes `setSpeakerLightLocked` performs for one channel in the
blink branch: `if (chan && WriteIntToFile(blink, BLINK_FILE))
WriteIntToFile(0, LED_FILE);` — the blink write is attempted only for
a non-zero channel, and the zero-brightness write only when the blink
write succeeded. -/
def blinkChannelWrites (env : Env) (blinkFile ledFile : DeviceFile)
    (chan blink : Nat) : List DeviceWrite :=
  if chan ≠ 0 then
    (blinkFile, blink) ::
      (if env.ok blinkFile blink then [(ledFile, 0)] else [])
  else []

/-- `Lights::setSpeakerLightLocked`: returns the attempted device
writes in program order and the (always `ok`) status. -/
def setSpeakerLightLocked (env : Env) (state : HwLightState) :
    List DeviceWrite × Status :=
  let blink := speakerBlink (speakerOnMS state) (speakerOffMS state)
  let red := speakerRed state
  let green := speakerGreen state
  let blue := speakerBlue state
  if blink ≠ 0 then
    (blinkChannelWrites env DeviceFile.RED_BLINK DeviceFile.RED_LED red blink
      ++ blinkChannelWrites env DeviceFile.GREEN_BLINK DeviceFile.GREEN_LED green blink
      ++ blinkChannelWrites env DeviceFile.BLUE_BLINK DeviceFile.BLUE_LED blue blink,
     Status.ok)
  else
    ([(DeviceFile.RED_LED, red), (DeviceFile.GREEN_LED, green),
      (DeviceFile.BLUE_LED, blue)], Status.ok)

/-- `Lights::handleSpeakerBatteryLocked`: render the battery request
when it is lit, otherwise render the notification request. -/
def handleSpeakerBatteryLocked (env : Env)
    (battery notification : HwLightState) : List DeviceWrite × Status :=
  if isLit battery ≠ 0 then setSpeakerLightLocked env battery
  else setSpeakerLightLocked env notification

/-- `Lights::setLightAttention`: update `g_attention` from the flash
mode, then re-run the battery/notification arbitration; always
returns `ok`. -/
def setLightAttention (env : Env) (g : GlobalState) (state : HwLightState) :
    List DeviceWrite × GlobalState × Status :=
  let attention : Int :=
    if state.flashMode = FlashMode.HARDWARE then state.flashOnMs
    else if state.flashMode = FlashMode.NONE then 0
    else g.g_attention
  let g2 := { g with g_attention := attention }
  ((handleSpeakerBatteryLocked env g2.g_battery g2.g_notification).1, g2,
   Status.ok)

/-- `Lights::setLightBattery`: store the request in `g_battery`, then
re-run the arbitration; always returns `ok`. -/
def setLightBattery (env : Env) (g : GlobalState) (state : HwLightState) :
    List DeviceWrite × GlobalState × Status :=
  let g2 := { g with g_battery := state }
  ((handleSpeakerBatteryLocked env g2.g_battery g2.g_notification).1, g2,
   Status.ok)

/-- `Lights::setLightNotification`: store the request in
`g_notification`, then re-run the arbitration; always returns `ok`. -/
def setLightNotification (env : Env) (g : GlobalState) (state : HwLightState) :
    List DeviceWrite × GlobalState × Status :=
  let g2 := { g with g_notification := state }
  ((handleSpeakerBatteryLocked env g2.g_battery g2.g_notification).1, g2,
   Status.ok)

/-- `Lights::setLightButtons`: `err = WriteIntToFile(state.color & 0xFF,
BUTTON_FILE)` stores the *boolean* result of `WriteStringToFile`
(1 = the write succeeded) in the `int err`, and the function returns
`ok` iff `err == 0`. -/
def setLightButtons (env : Env) (state : HwLightState) :
    List DeviceWrite × Status :=
  let value := state.color &&& 0xff
  let err : Nat := if env.ok DeviceFile.BUTTON value then 1 else 0
  ([(DeviceFile.BUTTON, value)],
   if err = 0 then Status.ok else Status.fromServiceSpecificError err)

/-- `Lights::setLightBacklight`.  `lpEnabled` is the 0/1 value of
`state.brightnessMode == LOW_PERSISTENCE`; the persistence file is
written exactly when the low-persistence boundary is crossed, and in
that case a successful write leaves `err = 1` (the boolean result of
`WriteIntToFile`), which skips the LCD write via `if (!err)`.
Returns (writes, new `g_last_backlight_mode`, status). -/
def setLightBacklight (env : Env) (g_last : BrightnessMode)
    (state : HwLightState) :
    List DeviceWrite × BrightnessMode × Status :=
  let lpEnabled : Nat :=
    if state.brightnessMode = BrightnessMode.LOW_PERSISTENCE then 1 else 0
  let toggle : Prop :=
    (g_last ≠ state.brightnessMode ∧ lpEnabled ≠ 0) ∨
      (lpEnabled = 0 ∧ g_last = BrightnessMode.LOW_PERSISTENCE)
  if toggle then
    let err1 : Nat := if env.ok DeviceFile.PERSISTENCE lpEnabled then 1 else 0
    let brightness : Nat :=
      if lpEnabled ≠ 0 then 0x80 else RgbToBrightness state
    let lcdFile : DeviceFile := if env.lcdExists then DeviceFile.LCD else DeviceFile.LCD2
    if err1 = 0 then
      let err : Nat := if env.ok lcdFile brightness then 1 else 0
      ([(DeviceFile.PERSISTENCE, lpEnabled), (lcdFile, brightness)],
       state.brightnessMode,
       if err = 0 then Status.ok else Status.fromServiceSpecificError err)
    else
      ([(DeviceFile.PERSISTENCE, lpEnabled)], state.brightnessMode,
       Status.fromServiceSpecificError err1)
  else
    let brightness : Nat := RgbToBrightness state
    let lcdFile : DeviceFile := if env.lcdExists then DeviceFile.LCD else DeviceFile.LCD2
    let err : Nat := if env.ok lcdFile brightness then 1 else 0
    ([(lcdFile, brightness)], state.brightnessMode,
     if err = 0 then Status.ok else Status.fromServiceSpecificError err)

/-- The supported light identifiers of `kAvailableLights`. -/
inductive LightType
  | ATTENTION
  | BACKLIGHT
  | BATTERY
  | BUTTONS
  | NOTIFICATIONS
  deriving DecidableEq, Repr

/-- `Lights::setLightState`: dispatch on the light identifier; the
BUTTONS case is guarded by `access(BUTTON_FILE, F_OK)` and rejected
with `EX_UNSUPPORTED_OPERATION` when the file is absent. -/
def setLightState (env : Env) (g : GlobalState) (id : LightType)
    (state : HwLightState) : List DeviceWrite × GlobalState × Status :=
  match id with
  | LightType.ATTENTION => setLightAttention env g state
  | LightType.BACKLIGHT =>
      let r := setLightBacklight env g.g_last_backlight_mode state
      (r.1, { g with g_last_backlight_mode := r.2.1 }, r.2.2)
  | LightType.BATTERY => setLightBattery env g state
  | LightType.BUTTONS =>
      if env.buttonExists then
        let r := setLightButtons env state
        (r.1, g, r.2)
      else
        ([], g, Status.fromExceptionCode BinderException.EX_UNSUPPORTED_OPERATION)
  | LightType.NOTIFICATIONS => setLightNotification env g state

/-- Values written to a given file, in order. -/
def writesTo (tr : List DeviceWrite) (f : DeviceFile) : List Nat :=
  (tr.filter (fun w => decide (w.1 = f))).map (fun w => w.2)

/-- Number of writes aimed at a given file. -/
def countWrites (tr : List DeviceWrite) (f : DeviceFile) : Nat :=
  (tr.filter (fun w => decide (w.1 = f))).length

/-! Concrete environments and requests used by the witnesses. -/

/-- Environment in which every device write succeeds and both probed
files are present. -/
def envAllOk : Env := ⟨fun _ _ => true, true, true⟩

/-- Environment in which every device write fails. -/
def envAllFail : Env := ⟨fun _ _ => false, true, true⟩

/-- An all-off request (color 0). -/
def stOff : HwLightState := ⟨0, FlashMode.NONE, 0, 0, BrightnessMode.USER⟩

/-- An opaque green steady request. -/
def stGreen : HwLightState := ⟨0xFF00FF00, FlashMode.NONE, 0, 0, BrightnessMode.USER⟩

/-- Timed request with equal on/off durations. -/
def stTimedEq : HwLightState := ⟨0xFF00FF00, FlashMode.TIMED, 100, 100, BrightnessMode.USER⟩

/-- Timed request with unequal positive on/off durations. -/
def stTimedNe : HwLightState := ⟨0xFF00FF00, FlashMode.TIMED, 100, 50, BrightnessMode.USER⟩

/-- Timed request with a zero on duration. -/
def stTimedZero : HwLightState := ⟨0xFF00FF00, FlashMode.TIMED, 0, 40, BrightnessMode.USER⟩

/-- Opaque red backlight request. -/
def stOpaqueRed : HwLightState := ⟨0xFFFF0000, FlashMode.NONE, 0, 0, BrightnessMode.USER⟩

/-- Opaque white backlight request. -/
def stOpaqueWhite : HwLightState := ⟨0xFFFFFFFF, FlashMode.NONE, 0, 0, BrightnessMode.USER⟩

/-- Half-transparent white backlight request (alpha 0x80). -/
def st80white : HwLightState := ⟨0x80FFFFFF, FlashMode.NONE, 0, 0, BrightnessMode.USER⟩

/-- Buttons request with color 0x123456. -/
def stButtons : HwLightState := ⟨0x123456, FlashMode.NONE, 0, 0, BrightnessMode.USER⟩

/-- Backlight request asking for low-persistence mode. -/
def stLP : HwLightState := ⟨0xFFFFFFFF, FlashMode.NONE, 0, 0, BrightnessMode.LOW_PERSISTENCE⟩

/-- Plain user-mode backlight request. -/
def stUser : HwLightState := ⟨0xFFFFFFFF, FlashMode.NONE, 0, 0, BrightnessMode.USER⟩

/-- Hardware-flash request with non-zero durations. -/
def stHw : HwLightState := ⟨0xFF123456, FlashMode.HARDWARE, 100, 100, BrightnessMode.USER⟩

/-- A concrete global store. -/
def g0 : GlobalState := ⟨stOff, stOff, BrightnessMode.USER, 0⟩

/-- The same store with a different attention level. -/
def g1 : GlobalState := ⟨stOff, stOff, BrightnessMode.USER, 42⟩

/-! Helper lemmas about write traces. -/

/-- `writesTo` distributes over concatenation of traces. -/
theorem writesTo_append (a b : List DeviceWrite) (f : DeviceFile) :
    writesTo (a ++ b) f = writesTo a f ++ writesTo b f := by
  simp [writesTo, List.filter_append]

/-- Writes of one blink-branch channel aimed at its own blink file. -/
theorem writesTo_blinkChannel_blinkFile (env : Env) (bf lf : DeviceFile)
    (chan blink : Nat) (hne : bf ≠ lf) :
    writesTo (blinkChannelWrites env bf lf chan blink) bf =
      if chan ≠ 0 then [blink] else [] := by
  unfold blinkChannelWrites writesTo
  by_cases h : chan = 0 <;> cases hok : env.ok bf blink <;>
    simp [h, hok, Ne.symm hne]

/-- Writes of one blink-branch channel aimed at its own brightness
file. -/
theorem writesTo_blinkChannel_ledFile (env : Env) (bf lf : DeviceFile)
    (chan blink : Nat) (hne : bf ≠ lf) :
    writesTo (blinkChannelWrites env bf lf chan blink) lf =
      if chan ≠ 0 ∧ env.ok bf blink = true then [0] else [] := by
  unfold blinkChannelWrites writesTo
  by_cases h : chan = 0 <;> cases hok : env.ok bf blink <;>
    simp [h, hok, hne]

/-- A blink-branch channel never writes to an unrelated file. -/
theorem writesTo_blinkChannel_other (env : Env) (bf lf f : DeviceFile)
    (chan blink : Nat) (h1 : f ≠ bf) (h2 : f ≠ lf) :
    writesTo (blinkChannelWrites env bf lf chan blink) f = [] := by
  unfold blinkChannelWrites writesTo
  by_cases h : chan = 0 <;> cases hok : env.ok bf blink <;>
    simp [h, hok, Ne.symm h1, Ne.symm h2]

/-! Claim theorems. -/

/-- Claim C1: the request rendered onto the physical RGB LED is the
battery request whenever the battery request is lit (non-zero RGB
regardless of alpha, per `isLit`); whenever the battery request is not
lit, the render is exactly that of the notification request, even when
the notification request is itself unlit. -/
theorem battery_priority_drives_rgb (env : Env)
    (battery notification : HwLightState) :
    (isLit battery ≠ 0 →
      handleSpeakerBatteryLocked env battery notification =
        setSpeakerLightLocked env battery) ∧
    (isLit battery = 0 →
      handleSpeakerBatteryLocked env battery notification =
        setSpeakerLightLocked env notification) := by
  constructor <;> intro h <;> simp [handleSpeakerBatteryLocked, h]

/-- Witness for C1 at a lit battery and at an unlit battery. -/
theorem battery_priority_drives_rgb_witness :
    handleSpeakerBatteryLocked envAllOk stGreen stOff =
      setSpeakerLightLocked envAllOk stGreen ∧
    handleSpeakerBatteryLocked envAllOk stOff stGreen =
      setSpeakerLightLocked envAllOk stGreen :=
  ⟨(battery_priority_drives_rgb envAllOk stGreen stOff).1 (by decide),
   (battery_priority_drives_rgb envAllOk stOff stGreen).2 (by decide)⟩

/-- Claim C2: for a `TIMED` request the blink code is 2 when both
durations are positive and equal, 1 when both are positive and
unequal, and 0 otherwise. -/
theorem timed_blink_code_selection (s : HwLightState)
    (h : s.flashMode = FlashMode.TIMED) :
    (0 < s.flashOnMs → 0 < s.flashOffMs → s.flashOnMs = s.flashOffMs →
      speakerBlink (speakerOnMS s) (speakerOffMS s) = 2) ∧
    (0 < s.flashOnMs → 0 < s.flashOffMs → s.flashOnMs ≠ s.flashOffMs →
      speakerBlink (speakerOnMS s) (speakerOffMS s) = 1) ∧
    (¬(0 < s.flashOnMs ∧ 0 < s.flashOffMs) →
      speakerBlink (speakerOnMS s) (speakerOffMS s) = 0) := by
  have hon : speakerOnMS s = s.flashOnMs := by simp [speakerOnMS, h]
  have hoff : speakerOffMS s = s.flashOffMs := by simp [speakerOffMS, h]
  unfold speakerBlink
  rw [hon, hoff]
  refine ⟨fun h1 h2 h3 => ?_, fun h1 h2 h3 => ?_, fun h1 => ?_⟩
  · rw [if_pos ⟨h1, h2⟩, if_pos h3]
  · rw [if_pos ⟨h1, h2⟩, if_neg h3]
  · rw [if_neg h1]

/-- Witness for C2 on the three duration patterns. -/
theorem timed_blink_code_selection_witness :
    speakerBlink (speakerOnMS stTimedEq) (speakerOffMS stTimedEq) = 2 ∧
    speakerBlink (speakerOnMS stTimedNe) (speakerOffMS stTimedNe) = 1 ∧
    speakerBlink (speakerOnMS stTimedZero) (speakerOffMS stTimedZero) = 0 :=
  ⟨(timed_blink_code_selection stTimedEq rfl).1 (by decide) (by decide)
      (by decide),
   (timed_blink_code_selection stTimedNe rfl).2.1 (by decide) (by decide)
      (by decide),
   (timed_blink_code_selection stTimedZero rfl).2.2 (by decide)⟩

/-- Claim C5 counterexample: the claim predicts that color
`0x80FFFFFF` (alpha 0x80, white) is scaled per channel to yield
brightness 128; `RgbToBrightness` actually ignores alpha and yields
255. -/
theorem alpha_scaling_counterexample :
    RgbToBrightness st80white = 255 ∧ RgbToBrightness st80white ≠ 128 := by
  decide

/-- Claim C5 amended: `RgbToBrightness` never scales by alpha; it
depends only on `color & 0xFFFFFF`, so any two colors with equal low
24 bits yield the same brightness regardless of their alpha bytes. -/
theorem alpha_ignored_in_brightness (s t : HwLightState)
    (h : s.color &&& 0xffffff = t.color &&& 0xffffff) :
    RgbToBrightness s = RgbToBrightness t := by
  unfold RgbToBrightness
  rw [h]

/-- Witness for the amended C5: alpha 0x80 white renders like opaque
white. -/
theorem alpha_ignored_in_brightness_witness :
    RgbToBrightness st80white = RgbToBrightness stOpaqueWhite :=
  alpha_ignored_in_brightness st80white stOpaqueWhite (by decide)

/-- Claim C6: for a fully opaque color the backlight base brightness
is `(77*R + 150*G + 29*B) / 2^8` with R, G, B the byte lanes of
`color & 0xFFFFFF`, the shift being truncating division by 256. -/
theorem opaque_backlight_luma (s : HwLightState)
    (h : (s.color >>> 24) &&& 0xff = 0xff) :
    RgbToBrightness s =
      (77 * (((s.color &&& 0xffffff) >>> 16) &&& 0xff)
        + 150 * (((s.color &&& 0xffffff) >>> 8) &&& 0xff)
        + 29 * ((s.color &&& 0xffffff) &&& 0xff)) / 2 ^ 8 := by
  simp [RgbToBrightness, Nat.shiftRight_eq_div_pow]

/-- Witness for C6: opaque red `0xFFFF0000` yields brightness 76. -/
theorem opaque_backlight_luma_witness : RgbToBrightness stOpaqueRed = 76 :=
  (opaque_backlight_luma stOpaqueRed (by decide)).trans (by decide)

/-- Claim C9: a request whose flash mode is not `TIMED` (including
`HARDWARE`) renders with on/off durations 0, hence blink code 0, and
writes the three raw channel intensities to the brightness controls
regardless of `flashOnMs` and `flashOffMs`. -/
theorem non_timed_steady_render (env : Env) (s : HwLightState)
    (h : s.flashMode ≠ FlashMode.TIMED) :
    speakerOnMS s = 0 ∧ speakerOffMS s = 0 ∧
    speakerBlink (speakerOnMS s) (speakerOffMS s) = 0 ∧
    (setSpeakerLightLocked env s).1 =
      [(DeviceFile.RED_LED, speakerRed s),
       (DeviceFile.GREEN_LED, speakerGreen s),
       (DeviceFile.BLUE_LED, speakerBlue s)] := by
  have h1 : speakerOnMS s = 0 := by
    unfold speakerOnMS
    cases hm : s.flashMode <;> simp_all
  have h2 : speakerOffMS s = 0 := by
    unfold speakerOffMS
    cases hm : s.flashMode <;> simp_all
  have h3 : speakerBlink (speakerOnMS s) (speakerOffMS s) = 0 := by
    rw [h1, h2]; decide
  refine ⟨h1, h2, h3, ?_⟩
  unfold setSpeakerLightLocked
  rw [h3]
  simp

/-- Witness for C9: a `HARDWARE` request with non-zero durations still
renders steadily with the raw channel bytes. -/
theorem non_timed_steady_render_witness :
    (setSpeakerLightLocked envAllOk stHw).1 =
      [(DeviceFile.RED_LED, 0x12), (DeviceFile.GREEN_LED, 0x34),
       (DeviceFile.BLUE_LED, 0x56)] :=
  ((non_timed_steady_render envAllOk stHw (by decide)).2.2.2).trans (by decide)

/-- Claim C3: with a non-zero blink code, each channel with non-zero
intensity gets the blink code written to its blink control and — only
when that write succeeds — a 0 written to its brightness control,
while a zero-intensity channel receives no writes at all; with blink
code 0, the three raw intensities are written to the brightness
controls, zero values included. -/
theorem blink_branch_channel_writes (env : Env) (s : HwLightState) :
    (speakerBlink (speakerOnMS s) (speakerOffMS s) ≠ 0 →
      writesTo (setSpeakerLightLocked env s).1 DeviceFile.RED_BLINK =
        (if speakerRed s ≠ 0
         then [speakerBlink (speakerOnMS s) (speakerOffMS s)] else []) ∧
      writesTo (setSpeakerLightLocked env s).1 DeviceFile.RED_LED =
        (if speakerRed s ≠ 0 ∧
            env.ok DeviceFile.RED_BLINK
              (speakerBlink (speakerOnMS s) (speakerOffMS s)) = true
         then [0] else []) ∧
      writesTo (setSpeakerLightLocked env s).1 DeviceFile.GREEN_BLINK =
        (if speakerGreen s ≠ 0
         then [speakerBlink (speakerOnMS s) (speakerOffMS s)] else []) ∧
      writesTo (setSpeakerLightLocked env s).1 DeviceFile.GREEN_LED =
        (if speakerGreen s ≠ 0 ∧
            env.ok DeviceFile.GREEN_BLINK
              (speakerBlink (speakerOnMS s) (speakerOffMS s)) = true
         then [0] else []) ∧
      writesTo (setSpeakerLightLocked env s).1 DeviceFile.BLUE_BLINK =
        (if speakerBlue s ≠ 0
         then [speakerBlink (speakerOnMS s) (speakerOffMS s)] else []) ∧
      writesTo (setSpeakerLightLocked env s).1 DeviceFile.BLUE_LED =
        (if speakerBlue s ≠ 0 ∧
            env.ok DeviceFile.BLUE_BLINK
              (speakerBlink (speakerOnMS s) (speakerOffMS s)) = true
         then [0] else [])) ∧
    (speakerBlink (speakerOnMS s) (speakerOffMS s) = 0 →
      (setSpeakerLightLocked env s).1 =
        [(DeviceFile.RED_LED, speakerRed s),
         (DeviceFile.GREEN_LED, speakerGreen s),
         (DeviceFile.BLUE_LED, speakerBlue s)]) := by
  constructor
  · intro hb
    have htr : (setSpeakerLightLocked env s).1 =
        blinkChannelWrites env DeviceFile.RED_BLINK DeviceFile.RED_LED
          (speakerRed s) (speakerBlink (speakerOnMS s) (speakerOffMS s))
        ++ blinkChannelWrites env DeviceFile.GREEN_BLINK DeviceFile.GREEN_LED
          (speakerGreen s) (speakerBlink (speakerOnMS s) (speakerOffMS s))
        ++ blinkChannelWrites env DeviceFile.BLUE_BLINK DeviceFile.BLUE_LED
          (speakerBlue s) (speakerBlink (speakerOnMS s) (speakerOffMS s)) := by
      unfold setSpeakerLightLocked
      rw [if_pos hb]
    rw [htr]
    simp only [writesTo_append]
    refine ⟨?_, ?_, ?_, ?_, ?_, ?_⟩ <;>
      simp [writesTo_blinkChannel_blinkFile, writesTo_blinkChannel_ledFile,
        writesTo_blinkChannel_other]
  · intro hb
    unfold setSpeakerLightLocked
    rw [hb]
    simp

/-- Witness for C3: green-only symmetric blink with all writes
succeeding touches only the green blink and brightness controls. -/
theorem blink_branch_channel_writes_witness :
    writesTo (setSpeakerLightLocked envAllOk stTimedEq).1
      DeviceFile.GREEN_BLINK = [2] ∧
    writesTo (setSpeakerLightLocked envAllOk stTimedEq).1
      DeviceFile.RED_BLINK = [] := by
  have h := (blink_branch_channel_writes envAllOk stTimedEq).1 (by decide)
  exact ⟨h.2.2.1.trans (by decide), h.1.trans (by decide)⟩

/-- Claim C4 (code-bug evaluation): `WriteIntToFile` returns the
boolean result of `WriteStringToFile` (true = success), yet
`setLightButtons` and `setLightBacklight` store it in an `int err`
and return `ok` iff `err == 0` — so a *successful* device write makes
them return service-specific error 1, and a *failed* write makes them
return `ok`. -/
theorem write_error_polarity_inverted :
    (setLightButtons envAllOk stButtons).2 =
      Status.fromServiceSpecificError 1 ∧
    (setLightButtons envAllFail stButtons).2 = Status.ok ∧
    (setLightBacklight envAllOk BrightnessMode.USER stUser).2.2 =
      Status.fromServiceSpecificError 1 ∧
    (setLightBacklight envAllFail BrightnessMode.USER stUser).2.2 =
      Status.ok := by
  refine ⟨rfl, rfl, rfl, rfl⟩

/-- Claim C7: the persistence control is written exactly once when the
requested mode crosses the LOW_PERSISTENCE boundary relative to the
previous mode and zero times otherwise (in particular when the mode
is unchanged); every LCD brightness write performed by a call that
enters LOW_PERSISTENCE carries the constant 0x80; the new mode is
recorded as current. -/
theorem backlight_persistence_transitions (env : Env)
    (g_last : BrightnessMode) (s : HwLightState) :
    (countWrites (setLightBacklight env g_last s).1 DeviceFile.PERSISTENCE =
      if (s.brightnessMode = BrightnessMode.LOW_PERSISTENCE ∧
            g_last ≠ BrightnessMode.LOW_PERSISTENCE) ∨
         (s.brightnessMode ≠ BrightnessMode.LOW_PERSISTENCE ∧
            g_last = BrightnessMode.LOW_PERSISTENCE)
      then 1 else 0) ∧
    (g_last = s.brightnessMode →
      countWrites (setLightBacklight env g_last s).1 DeviceFile.PERSISTENCE
        = 0) ∧
    (s.brightnessMode = BrightnessMode.LOW_PERSISTENCE →
      g_last ≠ BrightnessMode.LOW_PERSISTENCE →
      ∀ w ∈ (setLightBacklight env g_last s).1,
        w.1 = DeviceFile.LCD ∨ w.1 = DeviceFile.LCD2 → w.2 = 0x80) ∧
    (setLightBacklight env g_last s).2.1 = s.brightnessMode := by
  unfold setLightBacklight
  by_cases hm : s.brightnessMode = BrightnessMode.LOW_PERSISTENCE <;>
    by_cases hl : g_last = BrightnessMode.LOW_PERSISTENCE <;>
    cases hp : env.ok DeviceFile.PERSISTENCE
        (if s.brightnessMode = BrightnessMode.LOW_PERSISTENCE then 1 else 0) <;>
    cases hlcd : env.lcdExists <;>
    simp_all [countWrites, writesTo]

/-- Witness for C7: entering low persistence from USER writes the
persistence file once and records the new mode. -/
theorem backlight_persistence_transitions_witness :
    countWrites (setLightBacklight envAllOk BrightnessMode.USER stLP).1
      DeviceFile.PERSISTENCE = 1 ∧
    (setLightBacklight envAllOk BrightnessMode.USER stLP).2.1 =
      BrightnessMode.LOW_PERSISTENCE := by
  have h := backlight_persistence_transitions envAllOk BrightnessMode.USER stLP
  exact ⟨h.1.trans (by decide), h.2.2.2⟩

/-- Claim C8: a buttons request writes `color & 0xFF` to the button
brightness control when the button device file exists, and is
rejected with `EX_UNSUPPORTED_OPERATION` without any device write
when it does not. -/
theorem buttons_dispatch_low_byte (env : Env) (g : GlobalState)
    (s : HwLightState) :
    (env.buttonExists = true →
      (setLightState env g LightType.BUTTONS s).1 =
        [(DeviceFile.BUTTON, s.color &&& 0xff)]) ∧
    (env.buttonExists = false →
      (setLightState env g LightType.BUTTONS s).1 = [] ∧
      (setLightState env g LightType.BUTTONS s).2.2 =
        Status.fromExceptionCode BinderException.EX_UNSUPPORTED_OPERATION) := by
  constructor <;> intro h <;> simp [setLightState, setLightButtons, h]

/-- Witness for C8: color 0x123456 writes 0x56 to the button control
when present. -/
theorem buttons_dispatch_low_byte_witness :
    (setLightState envAllOk g0 LightType.BUTTONS stButtons).1 =
      [(DeviceFile.BUTTON, 0x56)] :=
  ((buttons_dispatch_low_byte envAllOk g0 stButtons).1 rfl).trans (by decide)

/-- Claim C10: the battery/notification arbitration and the RGB
device writes do not depend on the attention level — two stores
agreeing on battery, notification and backlight mode produce the same
render — and `setLightAttention` changes only `g_attention` (to
`flashOnMs` for HARDWARE, to 0 for NONE, unchanged otherwise) before
re-running the existing battery/notification decision. -/
theorem attention_noninterference (env : Env) (g g2 : GlobalState)
    (s : HwLightState)
    (hb : g.g_battery = g2.g_battery)
    (hn : g.g_notification = g2.g_notification)
    (hm : g.g_last_backlight_mode = g2.g_last_backlight_mode) :
    handleSpeakerBatteryLocked env g.g_battery g.g_notification =
      handleSpeakerBatteryLocked env g2.g_battery g2.g_notification ∧
    (setLightAttention env g s).1 = (setLightAttention env g2 s).1 ∧
    (setLightAttention env g s).2.1 =
      { g with g_attention :=
          if s.flashMode = FlashMode.HARDWARE then s.flashOnMs
          else if s.flashMode = FlashMode.NONE then 0
          else g.g_attention } ∧
    (setLightAttention env g s).1 =
      (handleSpeakerBatteryLocked env g.g_battery g.g_notification).1 := by
  refine ⟨by rw [hb, hn], ?_, rfl, rfl⟩
  unfold setLightAttention
  simp only []
  rw [hb, hn]

/-- Witness for C10 on two stores differing only in attention
level. -/
theorem attention_noninterference_witness :
    handleSpeakerBatteryLocked envAllOk g0.g_battery g0.g_notification =
      handleSpeakerBatteryLocked envAllOk g1.g_battery g1.g_notification :=
  (attention_noninterference envAllOk g0 g1 stOff rfl rfl rfl).1
